import Mathlib

/-!
Shallow embedding of mpv's `video/out/hwdec/hwdec_vaapi.c` (the VAAPI
hardware-surface interop layer) and proofs of the specification claims.

External calls (driver, renderer interop backends, windowing resource
providers) are modelled as oracle inputs carried by environment structures;
the control flow of each embedded function follows the C source line by
line.  Side effects on native resources (closing file descriptors,
releasing buffer handles, destroying images, invoking interop callbacks)
are recorded in an explicit action trace.
-/

namespace HwdecVaapi

/-- `VA_INVALID_ID` from the VA-API headers. -/
def VA_INVALID_ID : Nat := 0xffffffff

/-- `MKTAG('Y','V','1','2')`, i.e. `VA_FOURCC_YV12`. -/
def VA_FOURCC_YV12 : Nat := 0x59 + 0x56 * 256 + 0x31 * 65536 + 0x32 * 16777216

/-- The exported surface descriptor (`VADRMPRIMESurfaceDescriptor p->desc`):
its format four-character tag and the per-object file descriptors
(`desc.objects[n].fd`, with `num_objects` the list length). -/
structure VASurfDesc where
  fourcc : Nat
  objects : List Nat
deriving Repr, DecidableEq

/-- The derived VA image (`VAImage p->current_image`): its id, its buffer
handle and its format four-character tag. -/
structure VAImage where
  image_id : Nat
  buf : Nat
  fourcc : Nat
deriving Repr, DecidableEq

/-- Per-mapping transient state, `struct priv` of the source. -/
structure Priv where
  current_image : VAImage
  desc : VASurfDesc
  surface_acquired : Bool
  buffer_acquired : Bool
  esh_not_implemented : Bool
deriving Repr, DecidableEq

/-- Per-device state, `struct priv_owner` of the source.  The interop
callbacks installed by the backend initializers are modelled by presence
flags (`interop_map` non-NULL, etc.); `formats` is the sentinel-terminated
supported-format array, `none` standing for the NULL pointer. -/
structure PrivOwner where
  formats : Option (List Nat)
  probing_formats : Bool
  interop_init : Bool
  interop_map : Bool
  interop_map_legacy : Bool
  interop_unmap : Bool
deriving Repr, DecidableEq

/-- Native-resource effects performed by the mapper, in call order. -/
inductive Action where
  | interopUnmap
  | closeFd (fd : Nat)
  | releaseBufferHandle (buf : Nat)
  | destroyImage (id : Nat)
  | exportSurfaceHandle
  | syncSurface
  | interopMap
  | deriveImage
  | acquireBufferHandle
  | interopMapLegacy
deriving Repr, DecidableEq

/-- `mapper_unmap`: interop backend unmap first; then, guarded by
`surface_acquired`, close every exported object fd and clear the flag;
then, guarded by `buffer_acquired`, release the buffer handle and clear
the flag; then, guarded by image-id validity, destroy the derived image.
Returns the new `priv` state and the trace of native actions. -/
def mapper_unmap (p : Priv) : Priv × List Action :=
  let t0 := [Action.interopUnmap]
  let s1 :=
    if p.surface_acquired then
      ({ p with surface_acquired := false }, p.desc.objects.map Action.closeFd)
    else (p, [])
  let p1 := s1.1
  let s2 :=
    if p1.buffer_acquired then
      ({ p1 with buffer_acquired := false },
       [Action.releaseBufferHandle p1.current_image.buf])
    else (p1, [])
  let p2 := s2.1
  let s3 :=
    if p2.current_image.image_id ≠ VA_INVALID_ID then
      ({ p2 with current_image := { p2.current_image with image_id := VA_INVALID_ID } },
       [Action.destroyImage p2.current_image.image_id])
    else (p2, [])
  (s3.1, t0 ++ s1.2 ++ s2.2 ++ s3.2)

/-- Outcome of `vaExportSurfaceHandle` as the code distinguishes it:
success, `VA_STATUS_ERROR_UNIMPLEMENTED`, or any other error. -/
inductive VAStatus where
  | success
  | errorUnimplemented
  | otherError
deriving Repr, DecidableEq

/-- Oracle for the external calls made during one `mapper_map` call:
results of `vaExportSurfaceHandle` (status and, on success, the descriptor
written into `p->desc`), `vaSyncSurface`, the interop backend's `map`
(with the textures it installs into `mapper->tex`, in raw plane order),
`vaDeriveImage` (with the image written into `p->current_image`),
`vaAcquireBufferHandle`, and the legacy interop map. -/
structure MapEnv where
  exportStatus : VAStatus
  exportDesc : VASurfDesc
  syncOk : Bool
  interopMapOk : Bool
  rawTex : List Nat
  deriveOk : Bool
  derivedImage : VAImage
  acquireOk : Bool
  interopMapLegacyOk : Bool
  legacyRawTex : List Nat
deriving Repr, DecidableEq

/-- `MPSWAP(struct ra_tex*, mapper->tex[1], mapper->tex[2])` on the plane
list. -/
def swap12 (l : List Nat) : List Nat :=
  match l with
  | a :: b :: c :: rest => a :: c :: b :: rest
  | l => l

/-- Result of one `mapper_map` call: return value, new `priv` state, the
`mapper->tex` plane list, the trace of external calls/releases, and
whether the `MP_FATAL` mapping-failure message was emitted. -/
structure MapResult where
  ret : Int
  p : Priv
  tex : List Nat
  trace : List Action
  fatal : Bool
deriving Repr, DecidableEq

/-- The `err:` label of `mapper_map`: log fatally unless probing, return -1. -/
def map_err (po : PrivOwner) (p : Priv) (tex : List Nat) (trace : List Action) :
    MapResult :=
  { ret := -1, p := p, tex := tex, trace := trace, fatal := !po.probing_formats }

/-- The cleanup at the `esh_failed:` label: if `surface_acquired`, close
every exported object fd and clear the flag. -/
def esh_failed_cleanup (p : Priv) : Priv × List Action :=
  if p.surface_acquired then
    ({ p with surface_acquired := false }, p.desc.objects.map Action.closeFd)
  else (p, [])

/-- The legacy derive/acquire path of `mapper_map` (code after the
`esh_failed:` cleanup): if `interop_map_legacy` is installed, derive an
image, acquire its buffer handle (setting `buffer_acquired`), call the
legacy interop map and apply the YV12 plane swap; any failure jumps to
`err:`.  If the legacy map is not installed, `mapper_unmap` then `err:`. -/
def legacy_path (po : PrivOwner) (env : MapEnv) (p : Priv) (tex : List Nat)
    (trace : List Action) : MapResult :=
  if po.interop_map_legacy then
    let trace := trace ++ [Action.deriveImage]
    if !env.deriveOk then
      map_err po p tex trace
    else
      let p := { p with current_image := env.derivedImage }
      let trace := trace ++ [Action.acquireBufferHandle]
      if !env.acquireOk then
        map_err po p tex trace
      else
        let p := { p with buffer_acquired := true }
        let trace := trace ++ [Action.interopMapLegacy]
        if !env.interopMapLegacyOk then
          map_err po p tex trace
        else
          let tex := env.legacyRawTex
          let tex := if env.derivedImage.fourcc = VA_FOURCC_YV12 then swap12 tex else tex
          { ret := 0, p := p, tex := tex, trace := trace, fatal := false }
  else
    let u := mapper_unmap p
    map_err po u.1 tex (trace ++ u.2)

/-- `mapper_map`: if `esh_not_implemented` is already set, go straight to
`esh_failed`; otherwise call `vaExportSurfaceHandle`.  On success, store
the descriptor, sync (failure non-fatal), set `surface_acquired`, call the
interop map; on interop success apply the YV12 plane swap and return 0,
otherwise fall to `esh_failed`.  On `VA_STATUS_ERROR_UNIMPLEMENTED` set
the sticky `esh_not_implemented` flag and fall to `esh_failed`; on any
other export error fall to `esh_failed` directly.  `esh_failed` releases
the exported fds (if acquired) and continues with the legacy path. -/
def mapper_map (po : PrivOwner) (env : MapEnv) (p0 : Priv) (tex0 : List Nat) :
    MapResult :=
  if p0.esh_not_implemented then
    let c := esh_failed_cleanup p0
    legacy_path po env c.1 tex0 c.2
  else
    let trace := [Action.exportSurfaceHandle]
    match env.exportStatus with
    | .success =>
      let p1 := { p0 with desc := env.exportDesc }
      let trace := trace ++ [Action.syncSurface]
      let p2 := { p1 with surface_acquired := true }
      let trace := trace ++ [Action.interopMap]
      if env.interopMapOk then
        let tex := env.rawTex
        let tex := if env.exportDesc.fourcc = VA_FOURCC_YV12 then swap12 tex else tex
        { ret := 0, p := p2, tex := tex, trace := trace, fatal := false }
      else
        let c := esh_failed_cleanup p2
        legacy_path po env c.1 tex0 (trace ++ c.2)
    | .errorUnimplemented =>
      let p1 := { p0 with esh_not_implemented := true }
      let c := esh_failed_cleanup p1
      legacy_path po env c.1 tex0 (trace ++ c.2)
    | .otherError =>
      let c := esh_failed_cleanup p0
      legacy_path po env c.1 tex0 (trace ++ c.2)

/-- Oracle for the native display acquirer: which windowing backends are
compiled in (`HAVE_VAAPI_X11` / `HAVE_VAAPI_WAYLAND` / `HAVE_VAAPI_DRM`)
and the display handle each `create_*_va_display` helper would produce
(`none` standing for the NULL it returns when the renderer lacks the
resource or the driver call fails). -/
structure NativeEnv where
  haveX11 : Bool
  haveWayland : Bool
  haveDRM : Bool
  x11Display : Option Nat
  waylandDisplay : Option Nat
  drmDisplay : Option Nat
deriving Repr, DecidableEq

/-- The `create_native_cbs[]` table: name and creation result of each
compiled-in provider, in the source's fixed order x11, wayland, drm. -/
def create_native_cbs (e : NativeEnv) : List (String × Option Nat) :=
  (if e.haveX11 then [("x11", e.x11Display)] else []) ++
  (if e.haveWayland then [("wayland", e.waylandDisplay)] else []) ++
  (if e.haveDRM then [("drm", e.drmDisplay)] else [])

/-- The loop body of `create_native_va_display`: return the first
non-null display produced by the table entries, else NULL. -/
def first_display : List (String × Option Nat) → Option Nat
  | [] => none
  | (_, some d) :: _ => some d
  | (_, none) :: rest => first_display rest

/-- `create_native_va_display`. -/
def create_native_va_display (e : NativeEnv) : Option Nat :=
  first_display (create_native_cbs e)

/-- An interop backend initializer (`vaapi_gl_init` / `vaapi_vk_init`):
a name for instrumentation and the function called on the device state,
returning success and the state with whatever callbacks it installed. -/
structure InteropInit where
  name : String
  run : PrivOwner → Bool × PrivOwner

/-- The `interop_inits[]` table (NULL terminator left implicit): the GL
initializer first when `HAVE_GL`, then the Vulkan one when `HAVE_VULKAN`. -/
def interop_inits (haveGL haveVulkan : Bool) (gl vk : InteropInit) :
    List InteropInit :=
  (if haveGL then [gl] else []) ++ (if haveVulkan then [vk] else [])

/-- The selection loop at the top of `init`: call each initializer in
order, stopping (`break`) at the first that returns success.  Returns the
resulting device state and the names of the initializers invoked. -/
def run_interop_inits : List InteropInit → PrivOwner → PrivOwner × List String
  | [], po => (po, [])
  | f :: rest, po =>
    let r := f.run po
    if r.1 then (r.2, [f.name])
    else
      let k := run_interop_inits rest r.2
      (k.1, f.name :: k.2)

/-- One candidate of the probing loop in `determine_working_formats`:
the mpv subformat identifier (`s->params.hw_subfmt`) the candidate maps
to, whether the synthetic-frame allocation chain
(`av_hwframe_ctx_alloc` … `mp_image_params_valid`) succeeds, and whether
`try_format` (a full map through the mapper in probing mode) succeeds. -/
structure ProbeCandidate where
  hw_subfmt : Nat
  allocOk : Bool
  mapOk : Bool
deriving Repr, DecidableEq

/-- The probing loop body: for each driver-reported candidate in order,
append its subformat identifier exactly when both allocation and the
trial map succeed. -/
def probe_formats : List ProbeCandidate → List Nat
  | [] => []
  | c :: rest =>
    if c.allocOk && c.mapOk then c.hw_subfmt :: probe_formats rest
    else probe_formats rest

/-- `determine_working_formats`: set `probing_formats` for the duration
of the loop, collect the working formats (none at all when the frame
constraints query fails), append the 0 sentinel, publish the list and
clear `probing_formats`. -/
def determine_working_formats (fcOk : Bool) (cands : List ProbeCandidate)
    (po : PrivOwner) : PrivOwner :=
  let formats := if fcOk then probe_formats cands else []
  { po with formats := some (formats ++ [0]), probing_formats := false }

/-- Oracle for `init`: compiled-in interop backends and their
initializers, the native display acquirer's environment, the results of
`va_initialize`, the `av_device_ref` check and the emulation heuristic,
the caller's `hw->probing` flag, and the probing oracle for
`determine_working_formats`. -/
structure InitEnv where
  haveGL : Bool
  haveVulkan : Bool
  glInit : InteropInit
  vkInit : InteropInit
  native : NativeEnv
  vaInitOk : Bool
  avDeviceRef : Bool
  hwProbing : Bool
  emulated : Bool
  fcOk : Bool
  cands : List ProbeCandidate

/-- Result of `init`: return value, whether `hwdec_devices_add`
registered the device, and the device state at exit. -/
structure InitResult where
  ret : Int
  registered : Bool
  po : PrivOwner

/-- The body of `init` after the interop selection loop: fail if no map
or no unmap callback got installed; acquire a native display (fail on
NULL); `va_initialize`; check `av_device_ref`; when probing, reject
emulated drivers; run `determine_working_formats` and fail if the list
has no entry before the sentinel; otherwise register the device. -/
def init_after_interop (e : InitEnv) (po : PrivOwner) : InitResult :=
  if !po.interop_map || !po.interop_unmap then
    { ret := -1, registered := false, po := po }
  else
    match create_native_va_display e.native with
    | none => { ret := -1, registered := false, po := po }
    | some _ =>
      if !e.vaInitOk then { ret := -1, registered := false, po := po }
      else if !e.avDeviceRef then { ret := -1, registered := false, po := po }
      else if e.hwProbing && e.emulated then { ret := -1, registered := false, po := po }
      else
        if (determine_working_formats e.fcOk e.cands po).formats = none ∨
            ((determine_working_formats e.fcOk e.cands po).formats.getD []).headI = 0 then
          { ret := -1, registered := false,
            po := determine_working_formats e.fcOk e.cands po }
        else
          { ret := 0, registered := true,
            po := determine_working_formats e.fcOk e.cands po }

/-- `init`: the interop selection loop followed by the rest of the
device initialization. -/
def init (e : InitEnv) (po0 : PrivOwner) : InitResult :=
  init_after_interop e
    (run_interop_inits (interop_inits e.haveGL e.haveVulkan e.glInit e.vkInit) po0).1

/-- `check_fmt` scanning the sentinel-terminated array: true exactly when
`fmt` occurs before the first 0 entry; false on a NULL list. -/
def check_fmt_list : List Nat → Nat → Bool
  | [], _ => false
  | f :: rest, fmt =>
    if f = 0 then false
    else if f = fmt then true
    else check_fmt_list rest fmt

/-- `check_fmt` on the device state. -/
def check_fmt (po : PrivOwner) (fmt : Nat) : Bool :=
  match po.formats with
  | none => false
  | some l => check_fmt_list l fmt

/-- Oracle for `mapper_init`: whether `ra_get_imgfmt_desc` can describe
the destination format, the interop `init` callback's result, and the
destination image format (`mapper->src_params.hw_subfmt`). -/
structure MapperInitEnv where
  imgfmtDescOk : Bool
  interopInitOk : Bool
  dst_imgfmt : Nat
deriving Repr, DecidableEq

/-- Result of `mapper_init`: return value, whether the
"unsupported VA image format" fatal error was emitted, and whether
`check_fmt` was consulted at all. -/
structure MapperInitResult where
  ret : Int
  fatalUnsupported : Bool
  consultedFormats : Bool
deriving Repr, DecidableEq

/-- `mapper_init`: fail if the renderer cannot describe the destination
format; fail if the interop `init` callback (when installed) fails; then,
only when not probing, consult `check_fmt` and fail fatally on a
destination format missing from the supported list. -/
def mapper_init (po : PrivOwner) (e : MapperInitEnv) : MapperInitResult :=
  if !e.imgfmtDescOk then
    { ret := -1, fatalUnsupported := false, consultedFormats := false }
  else if po.interop_init && !e.interopInitOk then
    { ret := -1, fatalUnsupported := false, consultedFormats := false }
  else if !po.probing_formats && !check_fmt po e.dst_imgfmt then
    { ret := -1, fatalUnsupported := true, consultedFormats := true }
  else
    { ret := 0, fatalUnsupported := false, consultedFormats := !po.probing_formats }

/-- Iterated `mapper_map` calls on one session (frames in sequence):
returns the per-call traces and the final session state. -/
def map_calls (po : PrivOwner) : Priv → List Nat → List MapEnv →
    List (List Action) × Priv
  | p, _, [] => ([], p)
  | p, tex, e :: rest =>
    let r := mapper_map po e p tex
    let k := map_calls po r.p r.tex rest
    (r.trace :: k.1, k.2)

/-! ### Helper lemmas -/

theorem esh_cleanup_surface (p : Priv) :
    (esh_failed_cleanup p).1.surface_acquired = false := by
  unfold esh_failed_cleanup
  by_cases h : p.surface_acquired <;> simp [h]

theorem esh_cleanup_buffer (p : Priv) :
    (esh_failed_cleanup p).1.buffer_acquired = p.buffer_acquired := by
  unfold esh_failed_cleanup
  by_cases h : p.surface_acquired <;> simp [h]

theorem esh_cleanup_esh (p : Priv) :
    (esh_failed_cleanup p).1.esh_not_implemented = p.esh_not_implemented := by
  unfold esh_failed_cleanup
  by_cases h : p.surface_acquired <;> simp [h]

theorem esh_cleanup_no_export (p : Priv) :
    Action.exportSurfaceHandle ∉ (esh_failed_cleanup p).2 := by
  unfold esh_failed_cleanup
  by_cases h : p.surface_acquired <;> simp [h]

theorem mapper_unmap_surface (p : Priv) :
    (mapper_unmap p).1.surface_acquired = false := by
  unfold mapper_unmap
  by_cases h1 : p.surface_acquired <;> by_cases h2 : p.buffer_acquired <;>
    by_cases h3 : p.current_image.image_id = VA_INVALID_ID <;>
    simp [h1, h2, h3]

theorem mapper_unmap_buffer (p : Priv) :
    (mapper_unmap p).1.buffer_acquired = false := by
  unfold mapper_unmap
  by_cases h1 : p.surface_acquired <;> by_cases h2 : p.buffer_acquired <;>
    by_cases h3 : p.current_image.image_id = VA_INVALID_ID <;>
    simp [h1, h2, h3]

theorem mapper_unmap_esh (p : Priv) :
    (mapper_unmap p).1.esh_not_implemented = p.esh_not_implemented := by
  unfold mapper_unmap
  by_cases h1 : p.surface_acquired <;> by_cases h2 : p.buffer_acquired <;>
    by_cases h3 : p.current_image.image_id = VA_INVALID_ID <;>
    simp [h1, h2, h3]

theorem mapper_unmap_no_export (p : Priv) :
    Action.exportSurfaceHandle ∉ (mapper_unmap p).2 := by
  unfold mapper_unmap
  by_cases h1 : p.surface_acquired <;> by_cases h2 : p.buffer_acquired <;>
    by_cases h3 : p.current_image.image_id = VA_INVALID_ID <;>
    simp [h1, h2, h3]

theorem legacy_path_esh (po : PrivOwner) (env : MapEnv) (p : Priv)
    (tex : List Nat) (tr : List Action) :
    (legacy_path po env p tex tr).p.esh_not_implemented = p.esh_not_implemented := by
  unfold legacy_path
  by_cases h1 : po.interop_map_legacy <;>
    by_cases h2 : env.deriveOk <;>
    by_cases h3 : env.acquireOk <;>
    by_cases h4 : env.interopMapLegacyOk <;>
    simp [h1, h2, h3, h4, map_err, mapper_unmap_esh]

theorem legacy_path_surface (po : PrivOwner) (env : MapEnv) (p : Priv)
    (tex : List Nat) (tr : List Action) (h : p.surface_acquired = false) :
    (legacy_path po env p tex tr).p.surface_acquired = false := by
  unfold legacy_path
  by_cases h1 : po.interop_map_legacy <;>
    by_cases h2 : env.deriveOk <;>
    by_cases h3 : env.acquireOk <;>
    by_cases h4 : env.interopMapLegacyOk <;>
    simp [h1, h2, h3, h4, map_err, mapper_unmap_surface, h]

theorem legacy_path_buffer (po : PrivOwner) (env : MapEnv) (p : Priv)
    (tex : List Nat) (tr : List Action) (h : p.buffer_acquired = false)
    (hret : (legacy_path po env p tex tr).ret = -1) :
    (legacy_path po env p tex tr).p.buffer_acquired = true →
      po.interop_map_legacy = true ∧ env.deriveOk = true ∧
      env.acquireOk = true ∧ env.interopMapLegacyOk = false := by
  unfold legacy_path at hret ⊢
  by_cases h1 : po.interop_map_legacy <;>
    by_cases h2 : env.deriveOk <;>
    by_cases h3 : env.acquireOk <;>
    by_cases h4 : env.interopMapLegacyOk <;>
    simp_all [map_err, mapper_unmap_buffer]

theorem legacy_path_no_export (po : PrivOwner) (env : MapEnv) (p : Priv)
    (tex : List Nat) (tr : List Action)
    (h : Action.exportSurfaceHandle ∉ tr) :
    Action.exportSurfaceHandle ∉ (legacy_path po env p tex tr).trace := by
  unfold legacy_path
  by_cases h1 : po.interop_map_legacy <;>
    by_cases h2 : env.deriveOk <;>
    by_cases h3 : env.acquireOk <;>
    by_cases h4 : env.interopMapLegacyOk <;>
    simp_all [map_err, mapper_unmap_no_export]

/-- One-step form of the sticky-flag property: with `esh_not_implemented`
set, `mapper_map` performs no export call and leaves the flag set. -/
theorem mapper_map_skips_export (po : PrivOwner) (env : MapEnv) (p : Priv)
    (tex : List Nat) (h : p.esh_not_implemented = true) :
    Action.exportSurfaceHandle ∉ (mapper_map po env p tex).trace ∧
      (mapper_map po env p tex).p.esh_not_implemented = true := by
  unfold mapper_map
  rw [h]
  simp only [if_true]
  constructor
  · exact legacy_path_no_export _ _ _ _ _ (esh_cleanup_no_export p)
  · rw [legacy_path_esh, esh_cleanup_esh, h]

/-! ### Branch equations for `mapper_map` -/

theorem mapper_map_eq_esh (po : PrivOwner) (env : MapEnv) (p : Priv)
    (tex : List Nat) (h : p.esh_not_implemented = true) :
    mapper_map po env p tex =
      legacy_path po env (esh_failed_cleanup p).1 tex (esh_failed_cleanup p).2 := by
  unfold mapper_map
  rw [h]
  simp

theorem mapper_map_eq_success_ok (po : PrivOwner) (env : MapEnv) (p : Priv)
    (tex : List Nat) (h : p.esh_not_implemented = false)
    (hs : env.exportStatus = .success) (hm : env.interopMapOk = true) :
    mapper_map po env p tex =
      { ret := 0,
        p := { p with desc := env.exportDesc, surface_acquired := true },
        tex := if env.exportDesc.fourcc = VA_FOURCC_YV12 then swap12 env.rawTex
               else env.rawTex,
        trace := [Action.exportSurfaceHandle, Action.syncSurface, Action.interopMap],
        fatal := false } := by
  unfold mapper_map
  rw [h, hs, hm]
  simp

theorem mapper_map_eq_success_fail (po : PrivOwner) (env : MapEnv) (p : Priv)
    (tex : List Nat) (h : p.esh_not_implemented = false)
    (hs : env.exportStatus = .success) (hm : env.interopMapOk = false) :
    mapper_map po env p tex =
      legacy_path po env
        (esh_failed_cleanup { p with desc := env.exportDesc, surface_acquired := true }).1
        tex
        ([Action.exportSurfaceHandle, Action.syncSurface, Action.interopMap] ++
          (esh_failed_cleanup { p with desc := env.exportDesc, surface_acquired := true }).2) := by
  unfold mapper_map
  rw [h, hs, hm]
  simp

theorem mapper_map_eq_unimpl (po : PrivOwner) (env : MapEnv) (p : Priv)
    (tex : List Nat) (h : p.esh_not_implemented = false)
    (hs : env.exportStatus = .errorUnimplemented) :
    mapper_map po env p tex =
      legacy_path po env
        (esh_failed_cleanup { p with esh_not_implemented := true }).1 tex
        ([Action.exportSurfaceHandle] ++
          (esh_failed_cleanup { p with esh_not_implemented := true }).2) := by
  unfold mapper_map
  rw [h, hs]
  simp

theorem mapper_map_eq_other (po : PrivOwner) (env : MapEnv) (p : Priv)
    (tex : List Nat) (h : p.esh_not_implemented = false)
    (hs : env.exportStatus = .otherError) :
    mapper_map po env p tex =
      legacy_path po env (esh_failed_cleanup p).1 tex
        ([Action.exportSurfaceHandle] ++ (esh_failed_cleanup p).2) := by
  unfold mapper_map
  rw [h, hs]
  simp

theorem legacy_path_eq_success (po : PrivOwner) (env : MapEnv) (p : Priv)
    (tex : List Nat) (tr : List Action) (h1 : po.interop_map_legacy = true)
    (h2 : env.deriveOk = true) (h3 : env.acquireOk = true)
    (h4 : env.interopMapLegacyOk = true) :
    legacy_path po env p tex tr =
      { ret := 0,
        p := { p with current_image := env.derivedImage, buffer_acquired := true },
        tex := if env.derivedImage.fourcc = VA_FOURCC_YV12 then swap12 env.legacyRawTex
               else env.legacyRawTex,
        trace := tr ++ [Action.deriveImage, Action.acquireBufferHandle,
                        Action.interopMapLegacy],
        fatal := false } := by
  unfold legacy_path
  rw [h1, h2, h3, h4]
  simp

/-! ### Concrete fixtures used by witnesses and counterexamples -/

/-- A device state with every interop callback installed and a probed
two-entry format list, outside probing mode. -/
def poFull : PrivOwner :=
  { formats := some [23, 0], probing_formats := false, interop_init := true,
    interop_map := true, interop_map_legacy := true, interop_unmap := true }

/-- A freshly initialised (unmapped) mapping session: both acquisition
flags clear, image id invalid, export not yet known to be unimplemented. -/
def privUnmapped : Priv :=
  { current_image := { image_id := VA_INVALID_ID, buf := VA_INVALID_ID, fourcc := 0 },
    desc := { fourcc := 0, objects := [] },
    surface_acquired := false, buffer_acquired := false,
    esh_not_implemented := false }

/-- An unmapped session whose sticky `esh_not_implemented` flag is set. -/
def privEshSet : Priv :=
  { privUnmapped with esh_not_implemented := true }

/-- Driver behaviour where export fails with a generic error, derive and
acquire succeed, and the legacy interop map call fails. -/
def envLegacyMapFails : MapEnv :=
  { exportStatus := .otherError, exportDesc := { fourcc := 0, objects := [] },
    syncOk := true, interopMapOk := false, rawTex := [],
    deriveOk := true, derivedImage := { image_id := 7, buf := 9, fourcc := 0 },
    acquireOk := true, interopMapLegacyOk := false, legacyRawTex := [] }

/-- Driver behaviour where both the modern export path and the legacy
path would fully succeed, with YV12 surfaces on both. -/
def envBothPaths : MapEnv :=
  { exportStatus := .success,
    exportDesc := { fourcc := VA_FOURCC_YV12, objects := [3, 4] },
    syncOk := true, interopMapOk := true, rawTex := [10, 11, 12],
    deriveOk := true,
    derivedImage := { image_id := 7, buf := 9, fourcc := VA_FOURCC_YV12 },
    acquireOk := true, interopMapLegacyOk := true, legacyRawTex := [20, 21, 22] }

/-! ### Claim C1 -/

/-- C1, counterexample: when export fails, the legacy derive and acquire
succeed, and the legacy interop map call then fails, `mapper_map` returns
failure with `buffer_acquired` still set — refuting the claim that both
acquisition flags are false after every failed map call. -/
theorem C1_counterexample :
    (mapper_map poFull envLegacyMapFails privUnmapped []).ret = -1 ∧
    (mapper_map poFull envLegacyMapFails privUnmapped []).p.buffer_acquired = true := by
  decide

/-- C1, amended: for every `mapper_map` call that starts from an unmapped
session (both acquisition flags clear) and returns failure,
`surface_acquired` is false on return, and `buffer_acquired` is also
false except in the single case where the legacy path's interop map call
failed after the buffer handle had been acquired (legacy map installed,
derive and acquire succeeded, legacy interop map failed), in which case
`buffer_acquired` remains true on return. -/
theorem C1_amended_flags_after_failed_map (po : PrivOwner) (env : MapEnv)
    (p : Priv) (tex : List Nat) (_hs : p.surface_acquired = false)
    (hb : p.buffer_acquired = false)
    (hret : (mapper_map po env p tex).ret = -1) :
    (mapper_map po env p tex).p.surface_acquired = false ∧
      ((mapper_map po env p tex).p.buffer_acquired = true →
        po.interop_map_legacy = true ∧ env.deriveOk = true ∧
        env.acquireOk = true ∧ env.interopMapLegacyOk = false) := by
  have key : ∀ (q : Priv) (T : List Action), q.buffer_acquired = false →
      (legacy_path po env (esh_failed_cleanup q).1 tex T).ret = -1 →
      (legacy_path po env (esh_failed_cleanup q).1 tex T).p.surface_acquired = false ∧
        ((legacy_path po env (esh_failed_cleanup q).1 tex T).p.buffer_acquired = true →
          po.interop_map_legacy = true ∧ env.deriveOk = true ∧
          env.acquireOk = true ∧ env.interopMapLegacyOk = false) := by
    intro q T hq hr
    exact ⟨legacy_path_surface po env _ tex T (esh_cleanup_surface q),
           legacy_path_buffer po env _ tex T ((esh_cleanup_buffer q).trans hq) hr⟩
  cases hesh : p.esh_not_implemented with
  | true =>
    rw [mapper_map_eq_esh po env p tex hesh] at hret ⊢
    exact key p _ hb hret
  | false =>
    cases hst : env.exportStatus with
    | success =>
      cases him : env.interopMapOk with
      | true =>
        rw [mapper_map_eq_success_ok po env p tex hesh hst him] at hret
        simp at hret
      | false =>
        rw [mapper_map_eq_success_fail po env p tex hesh hst him] at hret ⊢
        exact key _ _ hb hret
    | errorUnimplemented =>
      rw [mapper_map_eq_unimpl po env p tex hesh hst] at hret ⊢
      exact key _ _ hb hret
    | otherError =>
      rw [mapper_map_eq_other po env p tex hesh hst] at hret ⊢
      exact key _ _ hb hret

/-- C1, witness for the amended theorem at a concrete failing call. -/
theorem C1_amended_witness :
    (mapper_map poFull envLegacyMapFails privUnmapped []).p.surface_acquired = false ∧
      ((mapper_map poFull envLegacyMapFails privUnmapped []).p.buffer_acquired = true →
        poFull.interop_map_legacy = true ∧ envLegacyMapFails.deriveOk = true ∧
        envLegacyMapFails.acquireOk = true ∧
        envLegacyMapFails.interopMapLegacyOk = false) :=
  C1_amended_flags_after_failed_map poFull envLegacyMapFails privUnmapped []
    rfl rfl (by decide)

/-! ### Claim C4 -/

/-- C4: `mapper_unmap` performs, in this fixed order, the interop
backend's unmap, then — guarded only by `surface_acquired` — the close of
every per-object file descriptor of the exported descriptor, then —
guarded only by `buffer_acquired` — the release of the buffer handle,
then — guarded only by image-id validity — the destruction of the derived
image; both flags are clear and the image id invalid afterwards. -/
theorem C4_unmap_release_order (p : Priv) :
    (mapper_unmap p).2 =
      [Action.interopUnmap] ++
      (if p.surface_acquired then p.desc.objects.map Action.closeFd else []) ++
      (if p.buffer_acquired then [Action.releaseBufferHandle p.current_image.buf]
       else []) ++
      (if p.current_image.image_id ≠ VA_INVALID_ID then
        [Action.destroyImage p.current_image.image_id] else []) ∧
    (mapper_unmap p).1.surface_acquired = false ∧
    (mapper_unmap p).1.buffer_acquired = false ∧
    (mapper_unmap p).1.current_image.image_id = VA_INVALID_ID := by
  unfold mapper_unmap
  by_cases h1 : p.surface_acquired <;> by_cases h2 : p.buffer_acquired <;>
    by_cases h3 : p.current_image.image_id = VA_INVALID_ID <;>
    simp [h1, h2, h3]

/-! ### Claim C5 -/

/-- C5: on a successful map, the renderer texture list equals the raw
plane order from the interop backend with planes 1 and 2 swapped exactly
when the exported (modern path) or derived (legacy path) format
four-character tag is the YV12 tag, and is unchanged for any other tag. -/
theorem C5_yv12_plane_swap (po : PrivOwner) (env : MapEnv) (p q : Priv)
    (tex0 : List Nat) :
    (p.esh_not_implemented = false → env.exportStatus = VAStatus.success →
      env.interopMapOk = true →
      (mapper_map po env p tex0).ret = 0 ∧
      (mapper_map po env p tex0).tex =
        (if env.exportDesc.fourcc = VA_FOURCC_YV12 then swap12 env.rawTex
         else env.rawTex)) ∧
    ((q.esh_not_implemented = true ∨ env.exportStatus ≠ VAStatus.success ∨
        env.interopMapOk = false) →
      po.interop_map_legacy = true → env.deriveOk = true →
      env.acquireOk = true → env.interopMapLegacyOk = true →
      (mapper_map po env q tex0).ret = 0 ∧
      (mapper_map po env q tex0).tex =
        (if env.derivedImage.fourcc = VA_FOURCC_YV12 then swap12 env.legacyRawTex
         else env.legacyRawTex)) := by
  constructor
  · intro h1 h2 h3
    rw [mapper_map_eq_success_ok po env p tex0 h1 h2 h3]
    exact ⟨rfl, rfl⟩
  · intro hdis h1 h2 h3 h4
    cases hq : q.esh_not_implemented with
    | true =>
      rw [mapper_map_eq_esh po env q tex0 hq,
          legacy_path_eq_success po env _ _ _ h1 h2 h3 h4]
      exact ⟨rfl, rfl⟩
    | false =>
      rcases hdis with h | h | h
      · rw [hq] at h; exact absurd h (by decide)
      · cases hst : env.exportStatus with
        | success => exact absurd hst h
        | errorUnimplemented =>
          rw [mapper_map_eq_unimpl po env q tex0 hq hst,
              legacy_path_eq_success po env _ _ _ h1 h2 h3 h4]
          exact ⟨rfl, rfl⟩
        | otherError =>
          rw [mapper_map_eq_other po env q tex0 hq hst,
              legacy_path_eq_success po env _ _ _ h1 h2 h3 h4]
          exact ⟨rfl, rfl⟩
      · cases hst : env.exportStatus with
        | success =>
          rw [mapper_map_eq_success_fail po env q tex0 hq hst h,
              legacy_path_eq_success po env _ _ _ h1 h2 h3 h4]
          exact ⟨rfl, rfl⟩
        | errorUnimplemented =>
          rw [mapper_map_eq_unimpl po env q tex0 hq hst,
              legacy_path_eq_success po env _ _ _ h1 h2 h3 h4]
          exact ⟨rfl, rfl⟩
        | otherError =>
          rw [mapper_map_eq_other po env q tex0 hq hst,
              legacy_path_eq_success po env _ _ _ h1 h2 h3 h4]
          exact ⟨rfl, rfl⟩

/-- C5, witness: a YV12 surface mapped through the modern path and,
on a session with export disabled, through the legacy path. -/
theorem C5_yv12_plane_swap_witness :
    ((mapper_map poFull envBothPaths privUnmapped []).ret = 0 ∧
      (mapper_map poFull envBothPaths privUnmapped []).tex =
        (if envBothPaths.exportDesc.fourcc = VA_FOURCC_YV12 then
          swap12 envBothPaths.rawTex else envBothPaths.rawTex)) ∧
    ((mapper_map poFull envBothPaths privEshSet []).ret = 0 ∧
      (mapper_map poFull envBothPaths privEshSet []).tex =
        (if envBothPaths.derivedImage.fourcc = VA_FOURCC_YV12 then
          swap12 envBothPaths.legacyRawTex else envBothPaths.legacyRawTex)) :=
  ⟨(C5_yv12_plane_swap poFull envBothPaths privUnmapped privEshSet []).1
      rfl rfl rfl,
   (C5_yv12_plane_swap poFull envBothPaths privUnmapped privEshSet []).2
      (Or.inl rfl) rfl rfl rfl rfl⟩

/-! ### More concrete fixtures -/

/-- A device state with nothing installed yet, as `init` receives it. -/
def poNone : PrivOwner :=
  { formats := none, probing_formats := false, interop_init := false,
    interop_map := false, interop_map_legacy := false, interop_unmap := false }

/-- A device state as seen by the mapper during format probing:
`probing_formats` set, no format list published yet. -/
def poProbing : PrivOwner :=
  { formats := none, probing_formats := true, interop_init := true,
    interop_map := true, interop_map_legacy := true, interop_unmap := true }

/-- An interop initializer that reports success without installing any
callback. -/
def glStub : InteropInit :=
  { name := "gl", run := fun po => (true, po) }

/-- An interop initializer that reports failure. -/
def vkStub : InteropInit :=
  { name := "vk", run := fun po => (false, po) }

/-- A renderer exposing only a Wayland resource while all three
windowing providers are compiled in. -/
def natOnlyWayland : NativeEnv :=
  { haveX11 := true, haveWayland := true, haveDRM := true,
    x11Display := none, waylandDisplay := some 5, drmDisplay := none }

/-- An initialization environment whose interop selection installs no
callbacks, with everything after the selection able to succeed. -/
def envNoInterop : InitEnv :=
  { haveGL := true, haveVulkan := true, glInit := glStub, vkInit := vkStub,
    native := natOnlyWayland, vaInitOk := true, avDeviceRef := true,
    hwProbing := false, emulated := false, fcOk := true,
    cands := [{ hw_subfmt := 23, allocOk := true, mapOk := true }] }

/-- An initialization environment whose probing yields zero working
formats (every candidate's trial map fails). -/
def envZeroFormats : InitEnv :=
  { haveGL := true, haveVulkan := true, glInit := glStub, vkInit := vkStub,
    native := natOnlyWayland, vaInitOk := true, avDeviceRef := true,
    hwProbing := false, emulated := false, fcOk := true,
    cands := [{ hw_subfmt := 23, allocOk := true, mapOk := false },
              { hw_subfmt := 25, allocOk := false, mapOk := true }] }

/-! ### Claim C2 -/

/-- C2: whenever format probing yields zero working formats (either the
frame-constraints query fails or no candidate survives the trial map),
`init` returns failure and never registers the device. -/
theorem C2_zero_formats_init_fails (e : InitEnv) (po0 : PrivOwner)
    (h : e.fcOk = false ∨ probe_formats e.cands = []) :
    (init e po0).ret = -1 ∧ (init e po0).registered = false := by
  have hlist : (if e.fcOk then probe_formats e.cands else []) = ([] : List Nat) := by
    rcases h with h | h <;> simp [h]
  unfold init init_after_interop
  repeat' split
  all_goals simp_all [determine_working_formats, hlist]

/-- C2, witness at an environment where every candidate's trial map or
allocation fails. -/
theorem C2_zero_formats_init_fails_witness :
    (init envZeroFormats poNone).ret = -1 ∧
    (init envZeroFormats poNone).registered = false :=
  C2_zero_formats_init_fails envZeroFormats poNone (Or.inr (by decide))

/-! ### Claim C3 -/

/-- C3: the `esh_not_implemented` flag becomes true exactly when the
export call reports the unimplemented status, and once it is set every
subsequent `mapper_map` call on the session performs no export call at
all (the flag also stays set). -/
theorem C3_sticky_export_skip (po : PrivOwner) (p q : Priv)
    (tex texq : List Nat) (envs : List MapEnv) (env : MapEnv) :
    (p.esh_not_implemented = true →
      Action.exportSurfaceHandle ∉ (map_calls po p tex envs).1.flatten) ∧
    (q.esh_not_implemented = false →
      ((mapper_map po env q texq).p.esh_not_implemented = true ↔
        env.exportStatus = VAStatus.errorUnimplemented)) := by
  constructor
  · induction envs generalizing p tex with
    | nil =>
      intro hp
      simp [map_calls]
    | cons e rest ih =>
      intro hp
      have h := mapper_map_skips_export po e p tex hp
      have hrec := ih (mapper_map po e p tex).p (mapper_map po e p tex).tex h.2
      simp only [map_calls, List.flatten_cons, List.mem_append, not_or]
      exact ⟨h.1, hrec⟩
  · intro hq
    cases hst : env.exportStatus with
    | success =>
      cases him : env.interopMapOk with
      | true =>
        rw [mapper_map_eq_success_ok po env q texq hq hst him]
        simp [hq]
      | false =>
        rw [mapper_map_eq_success_fail po env q texq hq hst him,
            legacy_path_esh, esh_cleanup_esh]
        simp [hq]
    | errorUnimplemented =>
      rw [mapper_map_eq_unimpl po env q texq hq hst,
          legacy_path_esh, esh_cleanup_esh]
      simp
    | otherError =>
      rw [mapper_map_eq_other po env q texq hq hst,
          legacy_path_esh, esh_cleanup_esh]
      simp [hq]

/-- C3, witness: a session whose flag is set performs no export call in
a subsequent map, and a fresh session does not gain the flag from a
generic export error. -/
theorem C3_sticky_export_skip_witness :
    (Action.exportSurfaceHandle ∉
      (map_calls poFull privEshSet [] [envLegacyMapFails]).1.flatten) ∧
    ((mapper_map poFull envLegacyMapFails privUnmapped []).p.esh_not_implemented = true ↔
      envLegacyMapFails.exportStatus = VAStatus.errorUnimplemented) :=
  ⟨(C3_sticky_export_skip poFull privEshSet privUnmapped [] []
      [envLegacyMapFails] envLegacyMapFails).1 rfl,
   (C3_sticky_export_skip poFull privEshSet privUnmapped [] []
      [envLegacyMapFails] envLegacyMapFails).2 rfl⟩

/-! ### Claim C6 -/

/-- C6: the compiled-in interop initializers are tried in the fixed
order GL before Vulkan; the loop stops at the first initializer that
succeeds (only its name is invoked); and whenever the selection leaves
the map or the unmap callback uninstalled, `init` fails and registers
nothing. -/
theorem C6_interop_selection (gl vk : InteropInit) (po0 : PrivOwner)
    (e : InitEnv) :
    interop_inits true true gl vk = [gl, vk] ∧
    ((gl.run po0).1 = true →
      run_interop_inits (interop_inits true true gl vk) po0 =
        ((gl.run po0).2, [gl.name])) ∧
    (((run_interop_inits (interop_inits e.haveGL e.haveVulkan e.glInit e.vkInit)
          po0).1.interop_map = false ∨
      (run_interop_inits (interop_inits e.haveGL e.haveVulkan e.glInit e.vkInit)
          po0).1.interop_unmap = false) →
      (init e po0).ret = -1 ∧ (init e po0).registered = false) := by
  refine ⟨by simp [interop_inits], ?_, ?_⟩
  · intro h
    simp [interop_inits, run_interop_inits, h]
  · intro h
    have hc : (!(run_interop_inits
          (interop_inits e.haveGL e.haveVulkan e.glInit e.vkInit) po0).1.interop_map ||
        !(run_interop_inits
          (interop_inits e.haveGL e.haveVulkan e.glInit e.vkInit) po0).1.interop_unmap)
        = true := by
      rcases h with h | h <;> simp [h]
    unfold init init_after_interop
    rw [hc]
    exact ⟨rfl, rfl⟩

/-- C6, witness: a GL initializer that succeeds without installing the
callbacks — the Vulkan candidate is not tried, and `init` still fails. -/
theorem C6_interop_selection_witness :
    interop_inits true true glStub vkStub = [glStub, vkStub] ∧
    run_interop_inits (interop_inits true true glStub vkStub) poNone =
      ((glStub.run poNone).2, [glStub.name]) ∧
    ((init envNoInterop poNone).ret = -1 ∧
      (init envNoInterop poNone).registered = false) :=
  ⟨(C6_interop_selection glStub vkStub poNone envNoInterop).1,
   (C6_interop_selection glStub vkStub poNone envNoInterop).2.1 rfl,
   (C6_interop_selection glStub vkStub poNone envNoInterop).2.2 (Or.inl rfl)⟩

/-! ### Claim C7 -/

/-- C7: with all three windowing providers compiled in, the provider
table is in the fixed order x11, wayland, drm, and the acquirer returns
the first non-null display in that order, returning null when every
provider yields null. -/
theorem C7_native_display_order (e : NativeEnv) (hx : e.haveX11 = true)
    (hw : e.haveWayland = true) (hd : e.haveDRM = true) :
    create_native_cbs e =
      [("x11", e.x11Display), ("wayland", e.waylandDisplay),
       ("drm", e.drmDisplay)] ∧
    create_native_va_display e =
      (match e.x11Display with
       | some d => some d
       | none =>
         match e.waylandDisplay with
         | some d => some d
         | none => e.drmDisplay) := by
  have h1 : create_native_cbs e =
      [("x11", e.x11Display), ("wayland", e.waylandDisplay),
       ("drm", e.drmDisplay)] := by
    simp [create_native_cbs, hx, hw, hd]
  refine ⟨h1, ?_⟩
  rw [create_native_va_display, h1]
  cases e.x11Display <;> cases e.waylandDisplay <;> cases e.drmDisplay <;>
    simp [first_display]

/-- C7, witness: only the Wayland provider yields a display; the x11
attempt returns null and the acquirer falls through to Wayland. -/
theorem C7_native_display_order_witness :
    create_native_cbs natOnlyWayland =
      [("x11", natOnlyWayland.x11Display),
       ("wayland", natOnlyWayland.waylandDisplay),
       ("drm", natOnlyWayland.drmDisplay)] ∧
    create_native_va_display natOnlyWayland =
      (match natOnlyWayland.x11Display with
       | some d => some d
       | none =>
         match natOnlyWayland.waylandDisplay with
         | some d => some d
         | none => natOnlyWayland.drmDisplay) :=
  C7_native_display_order natOnlyWayland rfl rfl rfl

/-! ### Claim C8 -/

/-- C8: `mapper_unmap` on an already-unmapped session (both acquisition
flags clear, derived image id invalid) only invokes the interop
backend's unmap — it closes no file descriptor, releases no buffer
handle, destroys no image — and leaves the session state unchanged, so
it is idempotent. -/
theorem C8_unmap_idempotent (p : Priv) (h1 : p.surface_acquired = false)
    (h2 : p.buffer_acquired = false)
    (h3 : p.current_image.image_id = VA_INVALID_ID) :
    mapper_unmap p = (p, [Action.interopUnmap]) := by
  unfold mapper_unmap
  simp [h1, h2, h3]

/-- C8, witness at the freshly initialised session state. -/
theorem C8_unmap_idempotent_witness :
    mapper_unmap privUnmapped = (privUnmapped, [Action.interopUnmap]) :=
  C8_unmap_idempotent privUnmapped rfl rfl rfl

/-! ### Claim C9 -/

/-- C9, counterexample: when the driver reports the same subformat
twice and both probes succeed, the supported-format list contains that
identifier twice before the sentinel — the probing loop never
deduplicates, refuting the no-duplicates invariant as stated. -/
theorem C9_counterexample :
    probe_formats
        [{ hw_subfmt := 23, allocOk := true, mapOk := true },
         { hw_subfmt := 23, allocOk := true, mapOk := true }] = [23, 23] ∧
    (determine_working_formats true
        [{ hw_subfmt := 23, allocOk := true, mapOk := true },
         { hw_subfmt := 23, allocOk := true, mapOk := true }]
        poNone).formats = some [23, 23, 0] ∧
    ¬ ([23, 23] : List Nat).Nodup := by
  decide

/-- The formats collected by probing form a sublist of the candidates'
subformat identifiers, in driver order. -/
theorem probe_formats_sublist (cands : List ProbeCandidate) :
    List.Sublist (probe_formats cands) (cands.map ProbeCandidate.hw_subfmt) := by
  induction cands with
  | nil => simp [probe_formats]
  | cons c rest ih =>
    rw [probe_formats, List.map_cons]
    split
    · exact ih.cons₂ c.hw_subfmt
    · exact ih.cons c.hw_subfmt

/-- C9, amended: provided the driver-reported candidate subformat
identifiers are pairwise distinct, the probed supported-format list
contains no duplicates; and the list is only consulted by the mapper's
format-membership check when the probing flag is clear (during probing,
`check_fmt` is never invoked). -/
theorem C9_amended_nodup_and_consultation (cands : List ProbeCandidate)
    (hnd : (cands.map ProbeCandidate.hw_subfmt).Nodup) (po : PrivOwner)
    (e : MapperInitEnv) (hp : po.probing_formats = true) :
    (probe_formats cands).Nodup ∧
    (mapper_init po e).consultedFormats = false := by
  constructor
  · exact hnd.sublist (probe_formats_sublist cands)
  · unfold mapper_init
    cases hd : e.imgfmtDescOk <;> cases hii : po.interop_init <;>
      cases hio : e.interopInitOk <;> simp [hp, hd, hii, hio]

/-- C9, witness: distinct candidates yield a duplicate-free list, and a
probing-mode mapper init does not consult the list. -/
theorem C9_amended_witness :
    (probe_formats
        [{ hw_subfmt := 23, allocOk := true, mapOk := true },
         { hw_subfmt := 25, allocOk := true, mapOk := false }]).Nodup ∧
    (mapper_init poProbing
        { imgfmtDescOk := true, interopInitOk := true,
          dst_imgfmt := 23 }).consultedFormats = false :=
  C9_amended_nodup_and_consultation
    [{ hw_subfmt := 23, allocOk := true, mapOk := true },
     { hw_subfmt := 25, allocOk := true, mapOk := false }]
    (by decide) poProbing
    { imgfmtDescOk := true, interopInitOk := true, dst_imgfmt := 23 } rfl

/-! ### Claim C10 -/

/-- C10: with the probing flag set, `mapper_init` never consults the
supported-format list and succeeds exactly when the renderer can
describe the destination format and the interop `init` callback (when
installed) succeeds; with the flag clear, it fails for every
destination format missing from the list, emitting the fatal
unsupported-format error whenever the earlier steps succeeded. -/
theorem C10_probing_gates_format_check (po q : PrivOwner)
    (e f : MapperInitEnv) :
    (po.probing_formats = true →
      (mapper_init po e).consultedFormats = false ∧
      (mapper_init po e).ret =
        (if e.imgfmtDescOk && (!po.interop_init || e.interopInitOk) then 0
         else -1)) ∧
    (q.probing_formats = false → check_fmt q f.dst_imgfmt = false →
      (mapper_init q f).ret = -1 ∧
      (f.imgfmtDescOk = true →
        (q.interop_init = false ∨ f.interopInitOk = true) →
        (mapper_init q f).fatalUnsupported = true)) := by
  constructor
  · intro hp
    unfold mapper_init
    cases hd : e.imgfmtDescOk <;> cases hii : po.interop_init <;>
      cases hio : e.interopInitOk <;> simp [hp, hd, hii, hio]
  · intro hq hc
    unfold mapper_init
    cases hd : f.imgfmtDescOk <;> cases hii : q.interop_init <;>
      cases hio : f.interopInitOk <;> simp [hq, hc, hd, hii, hio]

/-- C10, witness: a probing-mode init on an unlisted format succeeds
without consulting the list; the same format is rejected fatally once
probing is over. -/
theorem C10_probing_gates_format_check_witness :
    ((mapper_init poProbing
        { imgfmtDescOk := true, interopInitOk := true,
          dst_imgfmt := 99 }).consultedFormats = false ∧
      (mapper_init poProbing
        { imgfmtDescOk := true, interopInitOk := true, dst_imgfmt := 99 }).ret =
        (if true && (!poProbing.interop_init || true) then 0 else -1)) ∧
    ((mapper_init poFull
        { imgfmtDescOk := true, interopInitOk := true, dst_imgfmt := 99 }).ret
        = -1 ∧
      (mapper_init poFull
        { imgfmtDescOk := true, interopInitOk := true,
          dst_imgfmt := 99 }).fatalUnsupported = true) := by
  have h := C10_probing_gates_format_check poProbing poFull
    { imgfmtDescOk := true, interopInitOk := true, dst_imgfmt := 99 }
    { imgfmtDescOk := true, interopInitOk := true, dst_imgfmt := 99 }
  have h2 := h.2 rfl (by decide)
  exact ⟨h.1 rfl, h2.1, h2.2 rfl (Or.inr rfl)⟩

end HwdecVaapi
